import Mathlib

/-!
Verification development for the VSK insurance API handler (`src/apivsk.js`).

The JavaScript module is shallowly embedded: JSON values become the inductive
`JsVal`; each `async` function becomes a pure Lean function that takes the
outcomes of its external calls (HTTP requests, database queries, object-storage
writes) as oracle inputs collected in a `World`, and returns its result
(`Except JsError _`, where `.error` models a thrown/rejected value) together
with the list of external-interaction `Event`s it performed, in order.
Time (`Date.now()` / `new Date()`) is passed in as `nowMs`, milliseconds since
the Unix epoch; the hosting process is assumed to run with a UTC system
timezone (the standard serverless runtime configuration), which is what the
`toLocaleString` round-trip in `buildAccidentRequest` relies on.
-/

namespace Vsk

/-- Model of a JavaScript JSON-ish value. Numbers are modelled as integers
(every numeric literal in the program and its claims is integral); `NaN` is
represented indirectly: numeric coercion returns `Option Int`, `none` = NaN. -/
inductive JsVal where
  | undefV
  | nullV
  | boolV (b : Bool)
  | num (n : Int)
  | str (s : String)
  | arr (elems : List JsVal)
  | obj (fields : List (String × JsVal))

/-- JavaScript truthiness of a value (`Boolean(v)`). -/
def truthy : JsVal → Bool
  | .undefV => false
  | .nullV => false
  | .boolV b => b
  | .num n => n != 0
  | .str s => s != ""
  | .arr _ => true
  | .obj _ => true

/-- A thrown JavaScript error: its `message`, and the HTTP status of the
upstream response when the error came from the HTTP client (`err.response`). -/
structure JsError where
  message : String
  responseStatus : Option Nat := none

/-- Property read `o[k]` on an object modelled as an ordered field list;
a missing property reads as `undefined`. -/
def getF (o : List (String × JsVal)) (k : String) : JsVal :=
  match o with
  | [] => .undefV
  | (k', v) :: rest => if k' == k then v else getF rest k

/-- Object spread-and-override `{ ...o, k: v }`: if `k` is already present its
value is replaced in place (JS keeps the first-occurrence position), otherwise
the field is appended at the end. -/
def setField (o : List (String × JsVal)) (k : String) (v : JsVal) : List (String × JsVal) :=
  match o with
  | [] => [(k, v)]
  | (k', v') :: rest => if k' == k then (k', v) :: rest else (k', v') :: setField rest k v

/-- Leading and trailing space removal over a character list (models the
whitespace trimming `Number()` applies to strings; only the plain space
character is modelled, the claims use none). -/
def stripSpaces (ds : List Char) : List Char :=
  ((ds.dropWhile (fun c => c == ' ')).reverse.dropWhile (fun c => c == ' ')).reverse

/-- Digit-string to natural number; `none` when empty or a non-digit occurs. -/
def digitsGo : List Char → Nat → Option Nat
  | [], acc => some acc
  | c :: cs, acc => if c.isDigit then digitsGo cs (acc * 10 + (c.toNat - 48)) else none

def digitsToNat : List Char → Option Nat
  | [] => none
  | ds => digitsGo ds 0

/-- `Number(s)` for a string: empty/whitespace-only is `0`, an optionally
signed run of digits is that integer, anything else is NaN (`none`).
(Fractional and exponent literals are not modelled; no claim uses them.) -/
def strToNumber (s : String) : Option Int :=
  match stripSpaces s.toList with
  | [] => some 0
  | '-' :: ds => (digitsToNat ds).map (fun n => -(n : Int))
  | '+' :: ds => (digitsToNat ds).map (fun n => (n : Int))
  | ds => (digitsToNat ds).map (fun n => (n : Int))

/-- `Number(v)`: JavaScript numeric coercion, `none` = NaN. Arrays and plain
objects are modelled as NaN (exact for plain objects; an approximation for the
exotic array-to-primitive cases, which no claim exercises). -/
def toNumber : JsVal → Option Int
  | .num n => some n
  | .nullV => some 0
  | .undefV => none
  | .boolV b => some (if b then 1 else 0)
  | .str s => strToNumber s
  | .arr _ => none
  | .obj _ => none

/-- `Number(c.sumInsured) || 50000` from `buildAccidentRequest`: NaN and `0`
are falsy, so both fall back to the 50000 minimum tier. -/
def coerceSum (v : JsVal) : Int :=
  match toNumber v with
  | none => 50000
  | some n => if n == 0 then 50000 else n

/-- Civil date (year, month, day) from a count of days since 1970-01-01
(Gregorian; standard days-to-civil algorithm, all claims use it concretely). -/
def civilFromDays (z0 : Nat) : Nat × Nat × Nat :=
  let z := z0 + 719468
  let era := z / 146097
  let doe := z % 146097
  let yoe := (doe - doe / 1460 + doe / 36524 - doe / 146096) / 365
  let y := yoe + era * 400
  let doy := doe - (365 * yoe + yoe / 4 - yoe / 100)
  let mp := (5 * doy + 2) / 153
  let d := doy - (153 * mp + 2) / 5 + 1
  let m := if mp < 10 then mp + 3 else mp - 9
  (if m ≤ 2 then y + 1 else y, m, d)

def pad2 (n : Nat) : String :=
  if n < 10 then "0" ++ toString n else toString n

def pad3 (n : Nat) : String :=
  if n < 10 then "00" ++ toString n
  else if n < 100 then "0" ++ toString n
  else toString n

def pad4 (n : Nat) : String :=
  if n < 10 then "000" ++ toString n
  else if n < 100 then "00" ++ toString n
  else if n < 1000 then "0" ++ toString n
  else toString n

/-- `YYYY-MM-DD` rendering of a day count since the epoch. -/
def dateStringOfDays (days : Nat) : String :=
  let c := civilFromDays days
  pad4 c.1 ++ "-" ++ pad2 c.2.1 ++ "-" ++ pad2 c.2.2

/-- The Moscow calendar day index of an instant: Moscow civil time is a fixed
UTC+3 (no DST since 2014), so shift by 3h and count whole days. -/
def moscowDayIndex (nowMs : Nat) : Nat :=
  (nowMs + 10800000) / 86400000

/-- Models `new Date(now.toLocaleString('en-US', {timeZone:'Europe/Moscow'}))
.toISOString().split('T')[0]` under a UTC process timezone: re-parsing the
Moscow wall-clock rendering as local (UTC) time shifts the instant by +3h, and
`toISOString` then yields the Moscow calendar date of `now`. -/
def moscowDateStr (nowMs : Nat) : String :=
  dateStringOfDays (moscowDayIndex nowMs)

/-- `new Date(ms).toISOString()`. -/
def isoOfMs (ms : Nat) : String :=
  let rem := ms % 86400000
  dateStringOfDays (ms / 86400000) ++ "T" ++ pad2 (rem / 3600000) ++ ":" ++
    pad2 (rem % 3600000 / 60000) ++ ":" ++ pad2 (rem % 60000 / 1000) ++ "." ++
    pad3 (rem % 1000) ++ "Z"

/-- `input.policyHolder` as read by `buildAccidentRequest`. The `person`
sub-object is an ordered field list (it is spread-merged). -/
structure PHolder where
  person : List (String × JsVal)
  address : JsVal := .undefV
  phone : JsVal := .undefV
  email : JsVal := .undefV

/-- One element of `input.insuredObject.covers`; only `sumInsured` is read. -/
structure Cover where
  sumInsured : JsVal := .undefV

/-- One element of `input.insuredObject.insureds`. -/
structure Insured where
  person : List (String × JsVal)
  additionalFactors : JsVal := .undefV

/-- `input.insuredObject`. -/
structure InsObj where
  covers : List Cover
  insureds : List Insured

/-- The parsed request body, with the fields the module reads. `policyHolder`
and `insuredObject` are `Option` because the code dereferences them without a
check (absence raises a TypeError). -/
structure ClientInput where
  action : JsVal := .undefV
  policy : JsVal := .undefV
  product : JsVal := .undefV
  startDate : JsVal := .undefV
  endDate : JsVal := .undefV
  issueDate : JsVal := .undefV
  policyHolder : Option PHolder := none
  insuredObject : Option InsObj := none
  successUrl : JsVal := .undefV
  failUrl : JsVal := .undefV
  id : JsVal := .undefV

/-- Output shape of `buildAccidentRequest` (the partner-API payload). -/
structure AccPolicyHolder where
  person : List (String × JsVal)
  address : JsVal
  phone : JsVal
  email : JsVal

structure AccCover where
  sumInsured : JsVal

structure AccInsured where
  person : List (String × JsVal)
  additionalFactors : JsVal

structure AccInsuredObject where
  covers : List AccCover
  insureds : List AccInsured

structure AccReq where
  product : JsVal
  startDate : JsVal
  endDate : JsVal
  issueDate : String
  policyHolder : AccPolicyHolder
  insuredObject : AccInsuredObject

/-- Body of `buildAccidentRequest` once `input.policyHolder` and
`input.insuredObject` are known to be present. -/
def buildCore (nowMs : Nat) (input : ClientInput) (ph : PHolder) (io : InsObj) : AccReq :=
  { product := if truthy input.product then input.product else .obj [("code", .str "ACCIDENT")]
    startDate := input.startDate
    endDate := input.endDate
    issueDate := moscowDateStr nowMs ++ "T23:59:59+03:00"
    policyHolder :=
      { person := setField ph.person "type" (.str "individual")
        address := ph.address
        phone := ph.phone
        email := ph.email }
    insuredObject :=
      { covers := io.covers.map (fun c => { sumInsured := .num (coerceSum c.sumInsured) })
        insureds := io.insureds.map (fun i =>
          { person := setField i.person "type" (.str "individual")
            additionalFactors := i.additionalFactors }) } }

/-- `buildAccidentRequest(input)` from `src/apivsk.js`: computes `issueDate`
as the Moscow calendar date of the current instant with the literal
`T23:59:59+03:00` suffix, and normalizes the payload. Dereferencing a missing
`policyHolder`/`insuredObject` throws (modelled as `.error`). -/
def buildAccidentRequest (nowMs : Nat) (input : ClientInput) : Except JsError AccReq :=
  match input.policyHolder, input.insuredObject with
  | some ph, some io => .ok (buildCore nowMs input ph io)
  | _, _ => .error { message := "Cannot read properties of undefined" }

/-- One external interaction performed by the module, in program order:
the metadata-service token fetch, opening a database session, one OAuth
exchange attempt against the partner token endpoint, a backoff sleep, one
partner business call, one successfully persisted database record (with the
price value bound into the row), and one object-storage write.  A failed
`executeQuery` persists nothing, so `record` is emitted only on success. -/
inductive Event where
  | iamFetch
  | dbSession
  | oauthAttempt (i : Nat)
  | sleep (ms : Nat)
  | partnerCall (name : String)
  | record (table : String) (price : JsVal)
  | s3Put

def isRecord : Event → Bool
  | .record _ _ => true
  | _ => false

def isPartnerCall : Event → Bool
  | .partnerCall _ => true
  | _ => false

/-- Quote response (`data` of the `calc` partner call). `insuredObject` is
optional because the response body is read without a presence check. -/
structure QuoteCovers where
  covers : JsVal

structure QuoteResp where
  premium : JsVal := .undefV
  draftId : JsVal := .undefV
  insuredObject : Option QuoteCovers := none

/-- Policy-issuance response (`pay`/`sample` partner call). -/
structure PolicyResp where
  policyNumber : JsVal := .undefV
  premium : JsVal := .undefV
  draftId : JsVal := .undefV

/-- Installment-payment response. -/
structure PayResp where
  paymentLink : JsVal := .undefV

/-- Oracle inputs of one invocation: the process environment and the outcome
each external call would have if performed.  `.error` models a rejected
promise (network failure, timeout or non-2xx), `.ok` a fulfilled one. -/
structure World where
  env : String → Option String
  /-- metadata endpoint: `resp.data.access_token` (`none` = field absent). -/
  metaResp : Except JsError (Option String)
  ydbReady : Bool
  /-- outcome of OAuth attempt `i`: `resp.data.access_token` on fulfilment. -/
  tokenAtt : Nat → Except JsError (Option String)
  quoteResp : Except JsError QuoteResp
  calcDb : Except JsError Unit
  policyResp : Except JsError PolicyResp
  payResp : Except JsError PayResp
  payDb : Except JsError Unit
  /-- `sample` document fetch: `resp.data.policyPDF` (`none` = absent). -/
  samplePdf : Except JsError (Option String)
  s3Put : Except JsError Unit
  signedUrl : String
  /-- legacy-endpoint fetch of the `pdf` action, base64 body on fulfilment. -/
  pdfResp : Except JsError String

/-- `!process.env[k]` is false exactly when the variable is set and non-empty. -/
def envTruthy (env : String → Option String) (k : String) : Bool :=
  match env k with
  | some s => s != ""
  | none => false

/-- `checkEnv(...vars)`: returns the first variable that is unset or empty
(the function throws on it immediately), or `none` when all are present. -/
def checkEnv (env : String → Option String) : List String → Option String
  | [] => none
  | k :: ks => if envTruthy env k then checkEnv env ks else some k

/-- `CONFIG.VSK_API.RETRIES`. -/
def vskRetries : Nat := 3

/-- The `for (let i = 0; i < RETRIES; i++)` loop of `getVskToken`, with the
remaining iteration count as fuel.  On a fulfilled attempt the access token is
returned; on a rejected attempt the error is re-thrown unchanged if this was
the last allowed attempt, otherwise the loop sleeps `1000 * (i + 1)` ms and
retries.  Fuel exhaustion is the (unreachable) loop fall-through, which in JS
returns `undefined`. -/
def vskLoop (att : Nat → Except JsError (Option String)) :
    Nat → Nat → Except JsError (Option String) × List Event
  | _, 0 => (.ok none, [])
  | i, fuel + 1 =>
    match att i with
    | .ok r => (.ok r, [.oauthAttempt i])
    | .error e =>
      if i == vskRetries - 1 then (.error e, [.oauthAttempt i])
      else ((vskLoop att (i + 1) fuel).1,
            .oauthAttempt i :: .sleep (1000 * (i + 1)) :: (vskLoop att (i + 1) fuel).2)

/-- `getVskToken()`: checks the two partner credentials in the environment
(throwing `Missing env: <var>` on the first missing one, before any network
attempt), then runs the retry loop. -/
def getVskToken (env : String → Option String) (att : Nat → Except JsError (Option String)) :
    Except JsError (Option String) × List Event :=
  match checkEnv env ["VSK_CLIENT_ID", "VSK_CLIENT_SECRET"] with
  | some k => (.error { message := "Missing env: " ++ k }, [])
  | none => vskLoop att 0 vskRetries

/-- `fetchIamToken()`: one bounded metadata call; every failure mode (network
error, missing `data`, empty token) is caught and re-thrown as the generic
message below. -/
def fetchIamToken (w : World) : Except JsError String × List Event :=
  match w.metaResp with
  | .ok (some t) =>
    if t == "" then (.error { message := "Не удалось получить IAM токен автоматически" }, [.iamFetch])
    else (.ok t, [.iamFetch])
  | .ok none => (.error { message := "Не удалось получить IAM токен автоматически" }, [.iamFetch])
  | .error _ => (.error { message := "Не удалось получить IAM токен автоматически" }, [.iamFetch])

/-- `getDriver()` on a fresh process (`driverInstance` unset): validates the
two YDB environment variables, fetches the infra token, and checks readiness. -/
def getDriver (w : World) : Except JsError Unit × List Event :=
  if envTruthy w.env "YDB_ENDPOINT" && envTruthy w.env "YDB_DATABASE" then
    match fetchIamToken w with
    | (.error e, t) => (.error e, t)
    | (.ok _, t) =>
      if w.ydbReady then (.ok (), t)
      else (.error { message := "YDB not ready" }, t)
  else
    (.error { message := "Не заданы параметры YDB" }, [])

/-- The Yandex Cloud Functions response envelope the module returns. -/
structure Response where
  statusCode : Nat
  body : JsVal
  headers : List (String × String) := []
  isBase64Encoded : Bool := false

/-- `TypedValues.double(data.premium || 0)`: the price bound into the
`insurance_calculations` row. -/
def calcStoredPrice (premium : JsVal) : JsVal :=
  if truthy premium then premium else .num 0

/-- `handleCalc(session, token, params)`: quote call, then the UPSERT into
`insurance_calculations`, then the response body (which dereferences
`data.insuredObject.covers`, throwing after the write if absent). -/
def handleCalc (w : World) (nowMs : Nat) (_token : Option String) (b : ClientInput) :
    Except JsError Response × List Event :=
  match buildAccidentRequest nowMs b with
  | .error e => (.error e, [])
  | .ok _req =>
    match w.quoteResp with
    | .error e => (.error e, [.partnerCall "quote"])
    | .ok data =>
      match w.calcDb with
      | .error e => (.error e, [.partnerCall "quote"])
      | .ok _ =>
        match data.insuredObject with
        | none =>
          (.error { message := "Cannot read properties of undefined" },
           [.partnerCall "quote", .record "insurance_calculations" (calcStoredPrice data.premium)])
        | some cov =>
          (.ok { statusCode := 200,
                 body := .obj [("premium", data.premium), ("requestId", data.draftId),
                               ("covers", cov.covers)] },
           [.partnerCall "quote", .record "insurance_calculations" (calcStoredPrice data.premium)])

/-- `handlePay(session, token, params)`: issue the policy, pay the first
installment, then the UPSERT into `insurance_payments` (binding
`policy.premium` as the price), then the response. -/
def handlePay (w : World) (nowMs : Nat) (_token : Option String) (b : ClientInput) :
    Except JsError Response × List Event :=
  match buildAccidentRequest nowMs b with
  | .error e => (.error e, [])
  | .ok _req =>
    match w.policyResp with
    | .error e => (.error e, [.partnerCall "issuePolicy"])
    | .ok policy =>
      match w.payResp with
      | .error e => (.error e, [.partnerCall "issuePolicy", .partnerCall "payInstallment"])
      | .ok pay =>
        match w.payDb with
        | .error e => (.error e, [.partnerCall "issuePolicy", .partnerCall "payInstallment"])
        | .ok _ =>
          (.ok { statusCode := 200,
                 body := .obj [("paymentLink", pay.paymentLink),
                               ("policyNumber", policy.policyNumber),
                               ("premium", policy.premium), ("id", b.id)] },
           [.partnerCall "issuePolicy", .partnerCall "payInstallment",
            .record "insurance_payments" policy.premium])

/-- `handleSample`: create a policy (via `handleCreatePolicy`), fetch its PDF
(throwing when `policyPDF` is absent), store it in object storage and answer
with a signed URL valid for one hour. -/
def handleSample (w : World) (nowMs : Nat) (_token : Option String) (b : ClientInput) :
    Except JsError Response × List Event :=
  match buildAccidentRequest nowMs b with
  | .error e => (.error e, [])
  | .ok _req =>
    match w.policyResp with
    | .error e => (.error e, [.partnerCall "issuePolicy"])
    | .ok policy =>
      match w.samplePdf with
      | .error e => (.error e, [.partnerCall "issuePolicy", .partnerCall "fetchDocument"])
      | .ok none =>
        (.error { message := "PDF не найден в ответе ВСК" },
         [.partnerCall "issuePolicy", .partnerCall "fetchDocument"])
      | .ok (some _pdf) =>
        match w.s3Put with
        | .error e => (.error e, [.partnerCall "issuePolicy", .partnerCall "fetchDocument"])
        | .ok _ =>
          (.ok { statusCode := 200,
                 body := .obj [("policyNumber", policy.policyNumber),
                               ("premium", policy.premium),
                               ("pdfUrl", .str w.signedUrl),
                               ("expiresAt", .str (isoOfMs (nowMs + 3600000)))] },
           [.partnerCall "issuePolicy", .partnerCall "fetchDocument", .s3Put])

/-- Template-literal rendering of a value (used in the `Content-Disposition`
header); only the cases a header string can meet are distinguished. -/
def jsDisplay : JsVal → String
  | .str s => s
  | .num n => toString n
  | .undefV => "undefined"
  | .nullV => "null"
  | .boolV b => if b then "true" else "false"
  | .arr _ => ""
  | .obj _ => "[object Object]"

/-- `handlePdf(session, token, body)`: 400 when `body.policy` is falsy;
otherwise one fetch against the legacy endpoint whose failure, of any kind, is
caught inside the function and mapped to its own 500 response. -/
def handlePdf (w : World) (_token : Option String) (b : ClientInput) :
    Response × List Event :=
  if truthy b.policy then
    match w.pdfResp with
    | .ok bytes =>
      ({ statusCode := 200,
         headers := [("Content-Type", "application/pdf"),
                     ("Content-Disposition",
                      "attachment; filename=\"" ++ jsDisplay b.policy ++ ".pdf\"")],
         body := .str bytes,
         isBase64Encoded := true },
       [.partnerCall "pdfLegacy"])
    | .error e =>
      ({ statusCode := 500,
         body := .obj [("error", .str "Ошибка при получении PDF"),
                       ("details", .str e.message)] },
       [.partnerCall "pdfLegacy"])
  else
    ({ statusCode := 400, body := .obj [("error", .str "policy missing")] }, [])

/-- The `switch (body.action)` with strict string comparison. -/
def actionIs (v : JsVal) (s : String) : Bool :=
  match v with
  | .str t => t == s
  | _ => false

/-- The `switch` dispatch inside the session callback. -/
def dispatch (w : World) (nowMs : Nat) (token : Option String) (b : ClientInput) :
    Except JsError Response × List Event :=
  if actionIs b.action "calc" then handleCalc w nowMs token b
  else if actionIs b.action "pay" then handlePay w nowMs token b
  else if actionIs b.action "sample" then handleSample w nowMs token b
  else if actionIs b.action "pdf" then
    ((Except.ok (handlePdf w token b).1), (handlePdf w token b).2)
  else
    (.ok { statusCode := 400, body := .obj [("error", .str "Unknown action")] }, [])

/-- The `withSession` callback: partner-token acquisition, then dispatch.  A
thrown error rejects the session promise. -/
def sessionBody (w : World) (nowMs : Nat) (b : ClientInput) :
    Except JsError Response × List Event :=
  match getVskToken w.env w.tokenAtt with
  | (.error e, t) => (.error e, t)
  | (.ok token, t) =>
    ((dispatch w nowMs token b).1, t ++ (dispatch w nowMs token b).2)

/-- `exports.handler` on a fresh process.  The `try/catch` converts errors of
the awaited `getDriver()` into a 500 response; the `withSession(...)` promise
is returned from the `try` block WITHOUT `await`, so a rejection arising
inside the session (token acquisition, partner calls, database writes) is not
caught — the handler's own promise rejects, modelled as `.error`. -/
def handler (w : World) (nowMs : Nat) (body : Option ClientInput) :
    Except JsError Response × List Event :=
  match body with
  | none => (.ok { statusCode := 400, body := .obj [("error", .str "action missing")] }, [])
  | some b =>
    if truthy b.action then
      match getDriver w with
      | (.error e, t) =>
        (.ok { statusCode := 500, body := .obj [("error", .str e.message)] }, t)
      | (.ok _, t) =>
        ((sessionBody w nowMs b).1, t ++ Event.dbSession :: (sessionBody w nowMs b).2)
    else
      (.ok { statusCode := 400, body := .obj [("error", .str "action missing")] }, [])

/-! ### Substring search (used to examine error messages) -/

/-- `leadEq n h`: `n` is a leading segment of `h`. -/
def leadEq : List Char → List Char → Bool
  | [], _ => true
  | _ :: _, [] => false
  | a :: as, b :: bs => a == b && leadEq as bs

/-- `occursIn n h`: `n` occurs contiguously somewhere in `h`. -/
def occursIn (n : List Char) : List Char → Bool
  | [] => leadEq n []
  | c :: cs => leadEq n (c :: cs) || occursIn n cs

/-- `strOccurs hay needle`: `needle` occurs in `hay`. -/
def strOccurs (hay needle : String) : Bool :=
  occursIn needle.toList hay.toList

/-! ### Concrete fixtures -/

/-- An environment in which every variable is set. -/
def envAll : String → Option String := fun _ => some "x"

/-- An environment with no variable set. -/
def envNone : String → Option String := fun _ => none

/-- Both partner credentials set, nothing else. -/
def envBoth : String → Option String := fun k =>
  if k == "VSK_CLIENT_ID" then some "id"
  else if k == "VSK_CLIENT_SECRET" then some "secret"
  else none

def eNet : JsError := { message := "network error", responseStatus := some 503 }

/-- OAuth attempts: the first two fail transiently, the third succeeds. -/
def attTwoFails : Nat → Except JsError (Option String) := fun i =>
  if i < 2 then .error eNet else .ok (some "TOKEN")

/-- OAuth attempts: every attempt fails. -/
def attAllFail : Nat → Except JsError (Option String) := fun _ => .error eNet

def person1 : List (String × JsVal) :=
  [("firstName", .str "A"), ("lastName", .str "B"), ("birthDate", .str "1990-01-01")]

def phCalc : PHolder :=
  { person := person1, address := .str "x", phone := .str "+7...", email := .str "a@b.c" }

def ioCalc : InsObj :=
  { covers := [{ sumInsured := .num 100000 }]
    insureds := [{ person := person1 }] }

/-- The end-to-end `calc` request body of the spec's scenario. -/
def bodyCalc : ClientInput :=
  { action := .str "calc", startDate := .str "2025-01-01", endDate := .str "2026-01-01",
    policyHolder := some phCalc, insuredObject := some ioCalc }

def bodyFrobnicate : ClientInput := { action := .str "frobnicate" }

def quoteOk : QuoteResp :=
  { premium := .num 1234, draftId := .str "D1",
    insuredObject := some { covers := .arr [.obj [("sumInsured", .num 100000)]] } }

/-- A world in which every external call succeeds. -/
def wOk : World :=
  { env := envAll
    metaResp := .ok (some "iam-token")
    ydbReady := true
    tokenAtt := fun _ => .ok (some "vsk-token")
    quoteResp := .ok quoteOk
    calcDb := .ok ()
    policyResp := .ok { policyNumber := .str "P-1", premium := .num 500, draftId := .str "D2" }
    payResp := .ok { paymentLink := .str "https://pay" }
    payDb := .ok ()
    samplePdf := .ok (some "JVBERi0=")
    s3Put := .ok ()
    signedUrl := "https://signed"
    pdfResp := .ok "JVBERi0=" }

/-- Partner credentials set but nothing else; used to exercise `checkEnv`. -/
def envIdOnly : String → Option String := fun k =>
  if k == "VSK_CLIENT_ID" then some "id" else none

/-! ### C2 — partner-token retry behaviour -/

/-- C2: with both credentials present, if the first two OAuth attempts fail
and the third succeeds, `getVskToken` performs exactly the three attempts with
backoff sleeps of 1000 ms and 2000 ms between them and returns the third
attempt's access token; if all three attempts fail, the error of the third
attempt is re-thrown unchanged after the same three attempts. -/
theorem token_retry_behavior (env : String → Option String)
    (att : Nat → Except JsError (Option String)) (e1 e2 : JsError)
    (henv : checkEnv env ["VSK_CLIENT_ID", "VSK_CLIENT_SECRET"] = none)
    (h0 : att 0 = .error e1) (h1 : att 1 = .error e2) :
    (∀ t, att 2 = .ok t →
      getVskToken env att =
        (.ok t, [.oauthAttempt 0, .sleep 1000, .oauthAttempt 1, .sleep 2000, .oauthAttempt 2])) ∧
    (∀ e3, att 2 = .error e3 →
      getVskToken env att =
        (.error e3, [.oauthAttempt 0, .sleep 1000, .oauthAttempt 1, .sleep 2000, .oauthAttempt 2])) := by
  constructor
  · intro t h2
    simp [getVskToken, henv, vskRetries, vskLoop, h0, h1, h2]
  · intro e3 h2
    simp [getVskToken, henv, vskRetries, vskLoop, h0, h1, h2]

/-- Witness for C2: two concrete transient failures followed by a success. -/
theorem token_retry_witness :
    getVskToken envBoth attTwoFails =
      (.ok (some "TOKEN"),
       [.oauthAttempt 0, .sleep 1000, .oauthAttempt 1, .sleep 2000, .oauthAttempt 2]) :=
  (token_retry_behavior envBoth attTwoFails eNet eNet rfl rfl rfl).1 (some "TOKEN") rfl

/-! ### C8 — credential presence check -/

/-- C8 (amended): `getVskToken` fails fast, before any network attempt (the
event trace is empty), with an error naming the FIRST missing credential in
the fixed check order: `VSK_CLIENT_ID` whenever it is missing (even if the
secret is missing too), else `VSK_CLIENT_SECRET` when only it is missing. -/
theorem env_check_first_missing (env : String → Option String)
    (att : Nat → Except JsError (Option String)) :
    (envTruthy env "VSK_CLIENT_ID" = false →
      getVskToken env att = (.error { message := "Missing env: VSK_CLIENT_ID" }, [])) ∧
    (envTruthy env "VSK_CLIENT_ID" = true → envTruthy env "VSK_CLIENT_SECRET" = false →
      getVskToken env att = (.error { message := "Missing env: VSK_CLIENT_SECRET" }, [])) := by
  constructor
  · intro h
    simp [getVskToken, checkEnv, h]
  · intro h1 h2
    simp [getVskToken, checkEnv, h1, h2]

/-- Counterexample for C8 as stated: with BOTH credentials absent the thrown
error names only `VSK_CLIENT_ID`; its message does not mention
`VSK_CLIENT_SECRET` at all. -/
theorem env_check_both_missing_cex :
    getVskToken envNone attAllFail = (.error { message := "Missing env: VSK_CLIENT_ID" }, []) ∧
    strOccurs "Missing env: VSK_CLIENT_ID" "VSK_CLIENT_SECRET" = false := by
  exact ⟨rfl, rfl⟩

/-- Witness for C8 (amended): only the secret missing. -/
theorem env_check_witness :
    getVskToken envIdOnly attAllFail =
      (.error { message := "Missing env: VSK_CLIENT_SECRET" }, []) :=
  (env_check_first_missing envIdOnly attAllFail).2 rfl rfl

/-! ### Helper lemmas about spread-merge -/

/-- After `{ ...o, k: v }`, reading `k` yields `v` (the tag wins on conflict). -/
theorem getF_setField_self (o : List (String × JsVal)) (k : String) (v : JsVal) :
    getF (setField o k v) k = v := by
  induction o with
  | nil => simp [setField, getF]
  | cons p rest ih =>
    obtain ⟨a, b⟩ := p
    by_cases h : a = k
    · simp [setField, getF, h]
    · simp [setField, getF, h, ih]

/-- After `{ ...o, k: v }`, every other key reads as in `o` (shallow merge). -/
theorem getF_setField_ne (o : List (String × JsVal)) (k k' : String) (v : JsVal)
    (h : k' ≠ k) : getF (setField o k v) k' = getF o k' := by
  have hks : ¬ (k = k') := fun hh => h hh.symm
  induction o with
  | nil => simp [setField, getF, hks]
  | cons p rest ih =>
    obtain ⟨a, b⟩ := p
    by_cases ha : a = k
    · subst ha
      simp [setField, getF, hks]
    · simp [setField, getF, ha, ih]

/-! ### C3 — server-side issueDate policy -/

/-- C3: the `issueDate` of the built payload is always the Moscow calendar
date of the invocation instant with the literal `T23:59:59+03:00` appended;
any client-supplied `issueDate` is ignored entirely; and two instants falling
on the same Moscow calendar day produce the same `issueDate`. -/
theorem issueDate_fixed_policy (n1 n2 : Nat) (b : ClientInput) (ph : PHolder) (io : InsObj)
    (d : JsVal) (hph : b.policyHolder = some ph) (hio : b.insuredObject = some io) :
    (∀ r, buildAccidentRequest n1 b = .ok r →
      r.issueDate = moscowDateStr n1 ++ "T23:59:59+03:00") ∧
    (buildAccidentRequest n1 { b with issueDate := d } = buildAccidentRequest n1 b) ∧
    (moscowDayIndex n1 = moscowDayIndex n2 →
      ∀ r1 r2, buildAccidentRequest n1 b = .ok r1 → buildAccidentRequest n2 b = .ok r2 →
        r1.issueDate = r2.issueDate) := by
  refine ⟨?_, ?_, ?_⟩
  · intro r hr
    simp [buildAccidentRequest, hph, hio] at hr
    subst hr
    rfl
  · rfl
  · intro hday r1 r2 h1 h2
    simp [buildAccidentRequest, hph, hio] at h1 h2
    subst h1
    subst h2
    simp [buildCore, moscowDateStr, hday]

/-- Witness for C3: the client-supplied `issueDate` is ignored on the spec's
concrete `calc` body. -/
theorem issueDate_witness :
    buildAccidentRequest 0 { bodyCalc with issueDate := .str "1999-09-09" } =
      buildAccidentRequest 0 bodyCalc :=
  (issueDate_fixed_policy 0 3600000 bodyCalc phCalc ioCalc (.str "1999-09-09") rfl rfl).2.1

/-! ### C6 — sumInsured coercion -/

/-- C6: the `sumInsured` coercion passes the four tiers 50000/100000/250000/
500000 through unchanged, sends `0`, `null`, `"abc"` — and in general every
value whose numeric coercion is falsy (NaN or 0) — to the minimum tier 50000,
and is exactly the transformation applied to every cover of the built
payload. -/
theorem sumInsured_coercion (v : JsVal) (now : Nat) (b : ClientInput) (ph : PHolder)
    (io : InsObj) (r : AccReq) (hph : b.policyHolder = some ph)
    (hio : b.insuredObject = some io) (hr : buildAccidentRequest now b = .ok r) :
    coerceSum (.num 50000) = 50000 ∧ coerceSum (.num 100000) = 100000 ∧
    coerceSum (.num 250000) = 250000 ∧ coerceSum (.num 500000) = 500000 ∧
    coerceSum (.num 0) = 50000 ∧ coerceSum .nullV = 50000 ∧ coerceSum (.str "abc") = 50000 ∧
    ((toNumber v = none ∨ toNumber v = some 0) → coerceSum v = 50000) ∧
    r.insuredObject.covers =
      io.covers.map (fun c => { sumInsured := .num (coerceSum c.sumInsured) }) := by
  refine ⟨by decide, by decide, by decide, by decide, by decide, by decide, by decide, ?_, ?_⟩
  · rintro (h | h) <;> simp [coerceSum, h]
  · simp [buildAccidentRequest, hph, hio] at hr
    subst hr
    rfl

/-- Witness for C6 on the spec's concrete body: `"abc"` coerces to the
minimum tier, and the built covers are the coerced input covers. -/
theorem sumInsured_witness :
    coerceSum (.str "abc") = 50000 ∧
    (buildCore 0 bodyCalc phCalc ioCalc).insuredObject.covers =
      ioCalc.covers.map (fun c => { sumInsured := .num (coerceSum c.sumInsured) }) := by
  have h := sumInsured_coercion (.str "abc") 0 bodyCalc phCalc ioCalc
    (buildCore 0 bodyCalc phCalc ioCalc) rfl rfl rfl
  exact ⟨h.2.2.2.2.2.2.1, h.2.2.2.2.2.2.2.2⟩

/-! ### C7 — purity and shallow merge of the request builder -/

/-- C7: for a valid input (policyHolder present, covers and insureds
non-empty), two invocations of `buildAccidentRequest` at different instants
agree on every field except the timestamp-derived `issueDate`; `startDate`
and `endDate` are copied through unchanged; the policy-holder person and each
insured person are the input persons shallow-merged with the fixed
`type: "individual"` tag; and for any person object the tag wins on conflict
while all other keys are preserved. -/
theorem build_request_pure_merge (n1 n2 : Nat) (b : ClientInput) (ph : PHolder) (io : InsObj)
    (r1 r2 : AccReq) (hph : b.policyHolder = some ph) (hio : b.insuredObject = some io)
    (_hc : io.covers ≠ []) (_hi : io.insureds ≠ [])
    (h1 : buildAccidentRequest n1 b = .ok r1) (h2 : buildAccidentRequest n2 b = .ok r2) :
    (r1.product = r2.product ∧ r1.startDate = r2.startDate ∧ r1.endDate = r2.endDate ∧
     r1.policyHolder = r2.policyHolder ∧ r1.insuredObject = r2.insuredObject) ∧
    (r1.startDate = b.startDate ∧ r1.endDate = b.endDate) ∧
    (r1.policyHolder.person = setField ph.person "type" (.str "individual") ∧
     r1.insuredObject.insureds = io.insureds.map (fun i =>
       { person := setField i.person "type" (.str "individual")
         additionalFactors := i.additionalFactors })) ∧
    (∀ o : List (String × JsVal),
      getF (setField o "type" (.str "individual")) "type" = .str "individual" ∧
      ∀ k, k ≠ "type" → getF (setField o "type" (.str "individual")) k = getF o k) := by
  simp [buildAccidentRequest, hph, hio] at h1 h2
  subst h1
  subst h2
  refine ⟨⟨rfl, rfl, rfl, rfl, rfl⟩, ⟨rfl, rfl⟩, ⟨rfl, rfl⟩, ?_⟩
  intro o
  exact ⟨getF_setField_self o "type" (.str "individual"),
         fun k hk => getF_setField_ne o "type" k (.str "individual") hk⟩

/-- Witness for C7 at two concrete instants on the spec's concrete body. -/
theorem build_request_witness :
    (buildCore 0 bodyCalc phCalc ioCalc).policyHolder.person =
      setField phCalc.person "type" (.str "individual") ∧
    (buildCore 0 bodyCalc phCalc ioCalc).startDate = bodyCalc.startDate := by
  have h := build_request_pure_merge 0 86400000 bodyCalc phCalc ioCalc
    (buildCore 0 bodyCalc phCalc ioCalc) (buildCore 86400000 bodyCalc phCalc ioCalc)
    rfl rfl (by simp [ioCalc]) (by simp [ioCalc]) rfl rfl
  exact ⟨h.2.2.1.1, h.2.1.1⟩

/-! ### Trace lemmas for the credential-acquisition phase -/

/-- The OAuth retry loop emits only attempt and sleep events: never a database
record, never a partner business call. -/
theorem vskLoop_clean (att : Nat → Except JsError (Option String)) (fuel : Nat) :
    ∀ i, ((vskLoop att i fuel).2.filter isRecord = []) ∧
         ((vskLoop att i fuel).2.filter isPartnerCall = []) := by
  induction fuel with
  | zero => intro i; simp [vskLoop]
  | succ n ih =>
    intro i
    cases h : att i with
    | ok r => simp [vskLoop, h, isRecord, isPartnerCall]
    | error e =>
      by_cases hb : (i == vskRetries - 1) = true
      · simp [vskLoop, h, hb, isRecord, isPartnerCall]
      · have hc := ih (i + 1)
        simp [vskLoop, h, hb, isRecord, isPartnerCall, hc.1, hc.2]

/-- Partner-token acquisition persists nothing and makes no partner business
call (its trace is only OAuth attempts and sleeps). -/
theorem getVskToken_clean (env : String → Option String)
    (att : Nat → Except JsError (Option String)) :
    ((getVskToken env att).2.filter isRecord = []) ∧
    ((getVskToken env att).2.filter isPartnerCall = []) := by
  cases h : checkEnv env ["VSK_CLIENT_ID", "VSK_CLIENT_SECRET"] with
  | some k => simp [getVskToken, h]
  | none =>
    have hc := vskLoop_clean att vskRetries 0
    simp [getVskToken, h, hc.1, hc.2]

/-- Driver initialization persists nothing and makes no partner business call
(its trace is at most the metadata fetch). -/
theorem getDriver_clean (w : World) :
    ((getDriver w).2.filter isRecord = []) ∧
    ((getDriver w).2.filter isPartnerCall = []) := by
  by_cases henv : (envTruthy w.env "YDB_ENDPOINT" && envTruthy w.env "YDB_DATABASE") = true
  · cases h : w.metaResp with
    | error e => simp [getDriver, fetchIamToken, henv, h, isRecord, isPartnerCall]
    | ok o =>
      cases o with
      | none => simp [getDriver, fetchIamToken, henv, h, isRecord, isPartnerCall]
      | some t =>
        by_cases ht : (t == "") = true
        · simp [getDriver, fetchIamToken, henv, h, ht, isRecord, isPartnerCall]
        · by_cases hr : w.ydbReady <;>
            simp [getDriver, fetchIamToken, henv, h, ht, hr, isRecord, isPartnerCall]
  · simp [getDriver, henv]

/-! ### C4 — records only after partner success -/

/-- C4: in a `calc` run a database record appears in the trace only when the
quote call succeeded, and in a `pay` run only when both the policy-issuance
and the installment-payment calls succeeded; a run whose partner call fails
leaves no record at all. -/
theorem record_only_after_partner_success (w : World) (now : Nat) (tok : Option String)
    (b : ClientInput) :
    (∀ e, w.quoteResp = .error e → (handleCalc w now tok b).2.filter isRecord = []) ∧
    (∀ e, w.policyResp = .error e → (handlePay w now tok b).2.filter isRecord = []) ∧
    (∀ e, w.payResp = .error e → (handlePay w now tok b).2.filter isRecord = []) ∧
    ((handleCalc w now tok b).2.filter isRecord ≠ [] → ∃ q, w.quoteResp = .ok q) ∧
    ((handlePay w now tok b).2.filter isRecord ≠ [] →
      (∃ p, w.policyResp = .ok p) ∧ ∃ p2, w.payResp = .ok p2) := by
  refine ⟨?_, ?_, ?_, ?_, ?_⟩
  · intro e he
    cases hb : buildAccidentRequest now b <;>
      simp [handleCalc, hb, he, isRecord]
  · intro e he
    cases hb : buildAccidentRequest now b <;>
      simp [handlePay, hb, he, isRecord]
  · intro e he
    cases hb : buildAccidentRequest now b <;>
      cases hp : w.policyResp <;>
        simp [handlePay, hb, hp, he, isRecord]
  · intro hne
    cases hq : w.quoteResp with
    | error e =>
      exfalso
      apply hne
      cases hb : buildAccidentRequest now b <;>
        simp [handleCalc, hb, hq, isRecord]
    | ok q => exact ⟨q, rfl⟩
  · intro hne
    cases hpol : w.policyResp with
    | error e =>
      exfalso
      apply hne
      cases hb : buildAccidentRequest now b <;>
        simp [handlePay, hb, hpol, isRecord]
    | ok p =>
      cases hpay : w.payResp with
      | error e =>
        exfalso
        apply hne
        cases hb : buildAccidentRequest now b <;>
          simp [handlePay, hb, hpol, hpay, isRecord]
      | ok p2 => exact ⟨⟨p, rfl⟩, ⟨p2, rfl⟩⟩

def eQuote : JsError := { message := "upstream 502", responseStatus := some 502 }

def wQuoteFail : World := { wOk with quoteResp := .error eQuote }

/-- Witness for C4: a failed quote call leaves no record. -/
theorem record_witness :
    (handleCalc wQuoteFail 0 none bodyCalc).2.filter isRecord = [] :=
  (record_only_after_partner_success wQuoteFail 0 none bodyCalc).1 eQuote rfl

/-! ### C9 — stored price versus echoed premium -/

/-- C9: on a successful `calc` run the trace contains exactly the quote call
and one `insurance_calculations` record whose price is `premium || 0`; the
200 response body echoes the raw upstream premium unchanged; a falsy premium
is stored as 0, and a nonzero numeric premium is stored as itself. -/
theorem calc_price_stored (w : World) (now : Nat) (tok : Option String) (b : ClientInput)
    (ph : PHolder) (io : InsObj) (data : QuoteResp) (cov : QuoteCovers)
    (hph : b.policyHolder = some ph) (hio : b.insuredObject = some io)
    (hq : w.quoteResp = .ok data) (hdb : w.calcDb = .ok ())
    (hcov : data.insuredObject = some cov) :
    (handleCalc w now tok b).2 =
      [.partnerCall "quote", .record "insurance_calculations" (calcStoredPrice data.premium)] ∧
    (handleCalc w now tok b).1 =
      .ok { statusCode := 200,
            body := .obj [("premium", data.premium), ("requestId", data.draftId),
                          ("covers", cov.covers)] } ∧
    (truthy data.premium = false → calcStoredPrice data.premium = .num 0) ∧
    (∀ n : Int, n ≠ 0 → data.premium = .num n → calcStoredPrice data.premium = .num n) := by
  refine ⟨?_, ?_, ?_, ?_⟩
  · simp [handleCalc, buildAccidentRequest, hph, hio, hq, hdb, hcov]
  · simp [handleCalc, buildAccidentRequest, hph, hio, hq, hdb, hcov]
  · intro hf
    simp [calcStoredPrice, hf]
  · intro n hn hp
    simp [calcStoredPrice, truthy, hp, hn]

def covZero : QuoteCovers := { covers := .arr [] }

def quoteZero : QuoteResp :=
  { premium := .num 0, draftId := .str "D9", insuredObject := some covZero }

def wPremZero : World := { wOk with quoteResp := .ok quoteZero }

/-- Witness for C9: premium 0 is falsy, so the stored price is 0 while the
record event carries `calcStoredPrice` of the raw premium. -/
theorem calc_price_witness :
    (handleCalc wPremZero 0 none bodyCalc).2 =
      [.partnerCall "quote",
       .record "insurance_calculations" (calcStoredPrice quoteZero.premium)] ∧
    calcStoredPrice quoteZero.premium = .num 0 := by
  have h := calc_price_stored wPremZero 0 none bodyCalc phCalc ioCalc quoteZero covZero
    rfl rfl rfl rfl rfl
  exact ⟨h.1, h.2.2.1 rfl⟩

/-! ### C10 — pdf fetch failures are contained -/

/-- C10: with a policy identifier present, any failure of the legacy document
fetch is caught inside `handlePdf` and mapped to a 500 response with `error`
and `details` fields; the dispatcher receives a normal response (no thrown
error), and the upstream status (carried in the error) is never echoed. -/
theorem pdf_error_mapped_500 (w : World) (now : Nat) (tok : Option String)
    (b : ClientInput) (e : JsError) (hp : truthy b.policy = true)
    (he : w.pdfResp = .error e) (hact : b.action = .str "pdf") :
    handlePdf w tok b =
      ({ statusCode := 500,
         body := .obj [("error", .str "Ошибка при получении PDF"),
                       ("details", .str e.message)] },
       [.partnerCall "pdfLegacy"]) ∧
    (dispatch w now tok b).1 = .ok (handlePdf w tok b).1 := by
  have hc : actionIs (JsVal.str "pdf") "calc" = false := rfl
  have hpy : actionIs (JsVal.str "pdf") "pay" = false := rfl
  have hs : actionIs (JsVal.str "pdf") "sample" = false := rfl
  have hd : actionIs (JsVal.str "pdf") "pdf" = true := rfl
  constructor
  · simp [handlePdf, hp, he]
  · simp [dispatch, hact, hc, hpy, hs, hd]

def ePdf : JsError := { message := "Request failed with status code 502", responseStatus := some 502 }

def wPdfFail : World := { wOk with pdfResp := .error ePdf }

def bodyPdf : ClientInput := { action := .str "pdf", policy := .str "P123" }

/-- Witness for C10 at a concrete failing fetch. -/
theorem pdf_error_witness :
    handlePdf wPdfFail none bodyPdf =
      ({ statusCode := 500,
         body := .obj [("error", .str "Ошибка при получении PDF"),
                       ("details", .str ePdf.message)] },
       [.partnerCall "pdfLegacy"]) :=
  (pdf_error_mapped_500 wPdfFail 0 none bodyPdf ePdf rfl rfl rfl).1

/-! ### C1 — unknown action -/

/-- C1 (amended): for a truthy `action` that is none of calc/pay/sample/pdf,
the handler persists no record and makes no partner business call in ANY
world, and — when driver initialization and token acquisition succeed —
returns the 400 `Unknown action` response; but the infra-token fetch, the
database session and the partner OAuth exchange DO happen before dispatch
(they appear in the trace ahead of the response). -/
theorem unknown_action_no_records_but_calls (w : World) (now : Nat) (b : ClientInput)
    (tk : Option String) (ha : truthy b.action = true)
    (h1 : actionIs b.action "calc" = false) (h2 : actionIs b.action "pay" = false)
    (h3 : actionIs b.action "sample" = false) (h4 : actionIs b.action "pdf" = false) :
    ((handler w now (some b)).2.filter isRecord = []) ∧
    ((handler w now (some b)).2.filter isPartnerCall = []) ∧
    (getDriver w = (.ok (), [.iamFetch]) →
      (getVskToken w.env w.tokenAtt).1 = .ok tk →
      handler w now (some b) =
        (.ok { statusCode := 400, body := .obj [("error", .str "Unknown action")] },
         .iamFetch :: .dbSession :: (getVskToken w.env w.tokenAtt).2)) := by
  have hdisp : ∀ t, dispatch w now t b =
      (.ok { statusCode := 400, body := .obj [("error", .str "Unknown action")] }, []) := by
    intro t
    simp [dispatch, h1, h2, h3, h4]
  have hgtc := getVskToken_clean w.env w.tokenAtt
  have hsb : ((sessionBody w now b).2.filter isRecord = []) ∧
      ((sessionBody w now b).2.filter isPartnerCall = []) ∧
      ((getVskToken w.env w.tokenAtt).1 = .ok tk →
        sessionBody w now b =
          (.ok { statusCode := 400, body := .obj [("error", .str "Unknown action")] },
           (getVskToken w.env w.tokenAtt).2)) := by
    cases hgt : getVskToken w.env w.tokenAtt with
    | mk r t =>
      rw [hgt] at hgtc
      cases r with
      | error e =>
        refine ⟨by simp [sessionBody, hgt, hgtc.1], by simp [sessionBody, hgt, hgtc.2], ?_⟩
        intro hok
        simp at hok
      | ok tok =>
        refine ⟨by simp [sessionBody, hgt, hdisp, hgtc.1],
                by simp [sessionBody, hgt, hdisp, hgtc.2], ?_⟩
        intro _hok
        simp [sessionBody, hgt, hdisp]
  have hgdc := getDriver_clean w
  cases hgd : getDriver w with
  | mk rd td =>
    rw [hgd] at hgdc
    cases rd with
    | error e =>
      refine ⟨by simp [handler, ha, hgd, hgdc.1], by simp [handler, ha, hgd, hgdc.2], ?_⟩
      intro hdrv _htok
      have := congrArg Prod.fst hdrv
      simp at this
    | ok u =>
      refine ⟨?_, ?_, ?_⟩
      · simp [handler, ha, hgd, List.filter_append, hgdc.1, hsb.1, isRecord]
      · simp [handler, ha, hgd, List.filter_append, hgdc.2, hsb.2.1, isPartnerCall]
      · intro hdrv htok
        have htd : td = [Event.iamFetch] := congrArg Prod.snd hdrv
        have hs := hsb.2.2 htok
        simp [handler, ha, hgd, hs, htd]

/-- Counterexample for C1 as stated: on `{action:"frobnicate"}` in a world
where everything succeeds, the response is indeed the 400 `Unknown action`
envelope, but external calls ARE made before dispatch: the trace contains the
infra-token fetch, a database session and a partner OAuth attempt. -/
theorem unknown_action_external_calls_cex :
    (handler wOk 0 (some bodyFrobnicate)).1 =
      .ok { statusCode := 400, body := .obj [("error", .str "Unknown action")] } ∧
    Event.iamFetch ∈ (handler wOk 0 (some bodyFrobnicate)).2 ∧
    Event.dbSession ∈ (handler wOk 0 (some bodyFrobnicate)).2 ∧
    Event.oauthAttempt 0 ∈ (handler wOk 0 (some bodyFrobnicate)).2 := by
  have ht : (handler wOk 0 (some bodyFrobnicate)).2 =
      [Event.iamFetch, Event.dbSession, Event.oauthAttempt 0] := rfl
  refine ⟨rfl, ?_, ?_, ?_⟩ <;> rw [ht] <;> simp

/-- Witness for C1 (amended) in the all-success world. -/
theorem unknown_action_witness :
    handler wOk 0 (some bodyFrobnicate) =
      (.ok { statusCode := 400, body := .obj [("error", .str "Unknown action")] },
       .iamFetch :: .dbSession :: (getVskToken wOk.env wOk.tokenAtt).2) :=
  (unknown_action_no_records_but_calls wOk 0 bodyFrobnicate (some "vsk-token")
    rfl rfl rfl rfl rfl).2.2 rfl rfl

/-! ### C5 — database failure after a successful quote -/

def eDb : JsError := { message := "db write failed" }

/-- All-success world except that the `insurance_calculations` write fails. -/
def wDbFail : World := { wOk with calcDb := .error eDb }

/-- C5 (code bug): when the quote succeeds (the `quote` partner call is in the
trace) but the database write fails, the handler does NOT return any response
envelope at all — its promise rejects with the database error, because the
`withSession(...)` promise is returned from the `try` block without `await`,
so the `catch` that would map it to a 500 response never runs. -/
theorem calc_db_failure_rejects :
    handler wDbFail 0 (some bodyCalc) =
      (.error eDb, [.iamFetch, .dbSession, .oauthAttempt 0, .partnerCall "quote"]) := rfl

end Vsk
